import Mathlib

/-
Verification of the analytic reference-solution evaluator in
Chapter_3/Flux_with_spatial_dependence/2_spatially_varying_flux_classic/setplot.py.

The two functions with algorithmic content are qinit (the initial indicator
profile) and qtrue (the similarity-transformed true solution).  Machine reals
are modelled by the mathematical reals; numpy sqrt by Real.sqrt; the numpy
where-indicator by an if-then-else.  The dynamic type dispatch of qtrue
(numpy array or list vs float or int vs anything else) is modelled by a small
tagged value type, and the Python runtime error raised when no branch assigns
the local variable q is modelled by an explicit error value.
-/

namespace Setplot

/-- Errors the Python runtime can raise from qtrue on bad input.  When the
argument x is neither an array, a list, a float nor an int, no branch of
qtrue assigns the local variable q, and the final statement `return q` raises
UnboundLocalError.  A TypeError is the kind of failure the spec calls a
type-contract violation; qtrue itself never raises one. -/
inductive PyError where
  | unboundLocalError
  | typeError
deriving DecidableEq

/-- Values qtrue can receive, following the two isinstance checks in the
source: a scalar (float or int), an array or list of scalars, or anything
else (the unsupported case). -/
inductive PyVal where
  | scalar (v : ℝ)
  | array (vs : List ℝ)
  | other

/-- Embedding of qinit from setplot.py.  The source first assigns
q = exp(-beta*(x-x0)**2) + where(0.1 < x < 0.4, 1, 0) and then immediately
reassigns q = where(0.1 < x < 0.4, 1, 0); the shadowing second assignment is
kept here so that the discarded Gaussian term is part of the model. -/
noncomputable def qinit (x : ℝ) : ℝ :=
  let beta : ℝ := 100
  let gamma : ℝ := 0
  let x0 : ℝ := 0.75
  let q : ℝ := Real.exp (-beta * (x - x0) ^ 2) + (if 0.1 < x ∧ x < 0.4 then 1 else 0)
  let q : ℝ := if 0.1 < x ∧ x < 0.4 then 1 else 0
  q

/-- Embedding of one iteration of the array-branch loop of qtrue: the shifted
coordinate xm = (sqrt(x[i]) - t)**2 is computed first, then the branch on
x[i] != 0 picks either qinit(xm)/sqrt(x[i])*sqrt(xm) or 0. -/
noncomputable def qtrueElem (xi t : ℝ) : ℝ :=
  let xm : ℝ := (Real.sqrt xi - t) ^ 2
  if xi ≠ 0 then qinit xm / Real.sqrt xi * Real.sqrt xm else 0

/-- Embedding of the array branch of qtrue: an output list of the same length
is built by applying the loop body to every element. -/
noncomputable def qtrueArray (xs : List ℝ) (t : ℝ) : List ℝ :=
  xs.map (fun xi => qtrueElem xi t)

/-- Embedding of the scalar branch of qtrue: for x != 0 the shifted coordinate
xm is computed inside the branch and the similarity-transformed value is
returned, otherwise 0. -/
noncomputable def qtrueScalar (x t : ℝ) : ℝ :=
  if x ≠ 0 then
    let xm : ℝ := (Real.sqrt x - t) ^ 2
    qinit xm / Real.sqrt x * Real.sqrt xm
  else 0

/-- Embedding of qtrue from setplot.py.  The two isinstance tests are
mutually exclusive, so they are modelled as a match on the tagged input; when
neither test fires, q is never assigned and `return q` raises
UnboundLocalError. -/
noncomputable def qtrue (x : PyVal) (t : ℝ) : Except PyError PyVal :=
  match x with
  | PyVal.array xs => Except.ok (PyVal.array (qtrueArray xs t))
  | PyVal.scalar v => Except.ok (PyVal.scalar (qtrueScalar v t))
  | PyVal.other => Except.error PyError.unboundLocalError

/-- The Gaussian term of qinit is dead: the returned value is the bare
indicator of the open interval (0.1, 0.4). -/
lemma qinit_eq (x : ℝ) : qinit x = if 0.1 < x ∧ x < 0.4 then 1 else 0 := by
  simp only [qinit]

lemma qinit_nonneg (x : ℝ) : 0 ≤ qinit x := by
  rw [qinit_eq]
  split <;> norm_num

lemma qinit_eq_zero_or_one (x : ℝ) : qinit x = 0 ∨ qinit x = 1 := by
  rw [qinit_eq]
  split
  · exact Or.inr rfl
  · exact Or.inl rfl

/-- The scalar branch and the array loop body compute the same value. -/
lemma qtrueScalar_eq_qtrueElem (x t : ℝ) : qtrueScalar x t = qtrueElem x t := by
  simp only [qtrueScalar, qtrueElem]

lemma qtrueElem_zero (t : ℝ) : qtrueElem 0 t = 0 := by
  simp [qtrueElem]

lemma qtrueScalar_zero (t : ℝ) : qtrueScalar 0 t = 0 := by
  simp [qtrueScalar]

lemma sqrt_quarter : Real.sqrt 0.25 = 0.5 := by
  rw [show (0.25 : ℝ) = 0.5 ^ 2 by norm_num]
  exact Real.sqrt_sq (by norm_num)

lemma qinit_quarter : qinit 0.25 = 1 := by
  rw [qinit_eq, if_pos (by norm_num)]

lemma qtrueElem_quarter : qtrueElem 0.25 0 = 1 := by
  simp only [qtrueElem]
  rw [if_pos (show (0.25 : ℝ) ≠ 0 by norm_num), sub_zero, sqrt_quarter,
    show ((0.5 : ℝ) ^ 2) = 0.25 by norm_num, sqrt_quarter, qinit_quarter]
  norm_num

/-- Claim C1: for every coordinate x different from 0 and every time t, both
the scalar branch and the array loop body of qtrue return
qinit ((sqrt x - t)^2) / sqrt x * abs (sqrt x - t), the absolute value being
sqrt of the shifted coordinate xm. -/
theorem spec_C1 (x t : ℝ) (h : x ≠ 0) :
    qtrueScalar x t = qinit ((Real.sqrt x - t) ^ 2) / Real.sqrt x * |Real.sqrt x - t| ∧
    qtrueElem x t = qinit ((Real.sqrt x - t) ^ 2) / Real.sqrt x * |Real.sqrt x - t| := by
  constructor
  · simp only [qtrueScalar]
    rw [if_pos h, Real.sqrt_sq_eq_abs]
  · simp only [qtrueElem]
    rw [if_pos h, Real.sqrt_sq_eq_abs]

/-- Witness for C1 at the concrete input x = 1, t = 0. -/
theorem spec_C1_witness :
    (1 : ℝ) ≠ 0 ∧
    (qtrueScalar 1 0 = qinit ((Real.sqrt 1 - 0) ^ 2) / Real.sqrt 1 * |Real.sqrt 1 - 0| ∧
     qtrueElem 1 0 = qinit ((Real.sqrt 1 - 0) ^ 2) / Real.sqrt 1 * |Real.sqrt 1 - 0|) :=
  ⟨one_ne_zero, spec_C1 1 0 one_ne_zero⟩

/-- Claim C2: qinit returns 1 on the strict open interval (0.1, 0.4) and 0
everywhere else, in particular at the boundary points 0.1 and 0.4; the
Gaussian term computed inside qinit has no effect, in that the returned value
is exactly the indicator of the interval. -/
theorem spec_C2 :
    (∀ x : ℝ, 0.1 < x → x < 0.4 → qinit x = 1) ∧
    (∀ x : ℝ, ¬(0.1 < x ∧ x < 0.4) → qinit x = 0) ∧
    qinit 0.1 = 0 ∧ qinit 0.4 = 0 ∧
    (∀ x : ℝ, qinit x = if 0.1 < x ∧ x < 0.4 then 1 else 0) := by
  refine ⟨?_, ?_, ?_, ?_, qinit_eq⟩
  · intro x h1 h2
    rw [qinit_eq, if_pos ⟨h1, h2⟩]
  · intro x h
    rw [qinit_eq, if_neg h]
  · rw [qinit_eq, if_neg (by norm_num)]
  · rw [qinit_eq, if_neg (by norm_num)]

/-- Witness for C2, exercising the universally quantified conjuncts at the
concrete inputs 0.25 and 0.5. -/
theorem spec_C2_witness :
    (0.1 : ℝ) < 0.25 ∧ (0.25 : ℝ) < 0.4 ∧ qinit 0.25 = 1 ∧
    ¬((0.1 : ℝ) < 0.5 ∧ (0.5 : ℝ) < 0.4) ∧ qinit 0.5 = 0 :=
  ⟨by norm_num, by norm_num, spec_C2.1 0.25 (by norm_num) (by norm_num),
   by norm_num, spec_C2.2.1 0.5 (by norm_num)⟩

/-- Claim C3: qtrue returns 0 at a zero coordinate in both the scalar branch
and at any array position holding 0; the x = 0 guard keeps the division by
sqrt x away from the singular point. -/
theorem spec_C3 (t : ℝ) (xs : List ℝ) (i : ℕ) (h1 : i < xs.length)
    (h2 : i < (qtrueArray xs t).length) (h0 : xs[i] = 0) :
    qtrueScalar 0 t = 0 ∧ qtrueElem 0 t = 0 ∧ (qtrueArray xs t)[i] = 0 := by
  refine ⟨qtrueScalar_zero t, qtrueElem_zero t, ?_⟩
  simp only [qtrueArray, List.getElem_map, h0]
  exact qtrueElem_zero t

/-- Witness for C3 on the one-element array with a zero coordinate and t = 5. -/
theorem spec_C3_witness :
    0 < ([(0 : ℝ)]).length ∧ 0 < (qtrueArray [(0 : ℝ)] 5).length ∧
    ([(0 : ℝ)])[0] = 0 ∧
    (qtrueScalar 0 5 = 0 ∧ qtrueElem 0 5 = 0 ∧ (qtrueArray [(0 : ℝ)] 5)[0] = 0) := by
  have hl : 0 < ([(0 : ℝ)]).length := by simp
  have hl2 : 0 < (qtrueArray [(0 : ℝ)] 5).length := by simp [qtrueArray]
  exact ⟨hl, hl2, rfl, spec_C3 5 [(0 : ℝ)] 0 hl hl2 rfl⟩

/-- Claim C4: qtrue preserves shape — an array input of length n yields an
array output of length n, and a scalar input yields a scalar output. -/
theorem spec_C4 :
    (∀ (xs : List ℝ) (t : ℝ), ∃ ys : List ℝ,
      qtrue (PyVal.array xs) t = Except.ok (PyVal.array ys) ∧ ys.length = xs.length) ∧
    (∀ v t : ℝ, ∃ w : ℝ, qtrue (PyVal.scalar v) t = Except.ok (PyVal.scalar w)) := by
  constructor
  · intro xs t
    exact ⟨qtrueArray xs t, rfl, by simp [qtrueArray]⟩
  · intro v t
    exact ⟨qtrueScalar v t, rfl⟩

/-- Claim C5: concrete scenario — qtrue on the array [0, 0.25] at t = 0 gives
[0, 1]; on the scalar 0.25 at t = 0 it gives 1; on the scalar 0 at t = 5 it
gives 0. -/
theorem spec_C5 :
    qtrue (PyVal.array [0, 0.25]) 0 = Except.ok (PyVal.array [0, 1]) ∧
    qtrue (PyVal.scalar 0.25) 0 = Except.ok (PyVal.scalar 1) ∧
    qtrue (PyVal.scalar 0) 5 = Except.ok (PyVal.scalar 0) := by
  have h1 : qtrueElem 0.25 0 = 1 := qtrueElem_quarter
  have h2 : qtrueScalar 0.25 0 = 1 := by
    rw [qtrueScalar_eq_qtrueElem]
    exact h1
  refine ⟨?_, ?_, ?_⟩
  · show Except.ok (PyVal.array (qtrueArray [0, 0.25] 0)) = _
    rw [show qtrueArray [0, 0.25] 0 = [qtrueElem 0 0, qtrueElem 0.25 0] from rfl,
      qtrueElem_zero, h1]
  · show Except.ok (PyVal.scalar (qtrueScalar 0.25 0)) = _
    rw [h2]
  · show Except.ok (PyVal.scalar (qtrueScalar 0 5)) = _
    rw [qtrueScalar_zero]

/-- Counterexample for C6 as stated: on an unsupported input the code does
fail, but the raised error is UnboundLocalError (the local q is returned
without ever being assigned), not a type-contract violation such as
TypeError. -/
theorem spec_C6_counterexample :
    qtrue PyVal.other 0 = Except.error PyError.unboundLocalError ∧
    PyError.unboundLocalError ≠ PyError.typeError :=
  ⟨rfl, by decide⟩

/-- Claim C6 as amended: when qtrue is called with an input that is neither a
scalar nor an array or list, no branch assigns q, so the call raises an error
(UnboundLocalError) instead of returning a malformed result; the error is an
unbound-local error rather than a clear type-contract error. -/
theorem spec_C6 (t : ℝ) :
    qtrue PyVal.other t = Except.error PyError.unboundLocalError := rfl

/-- Helper for C7: the loop body is bounded by sqrt 0.4 / sqrt x for a
positive coordinate, because qinit vanishes outside (0.1, 0.4). -/
lemma qtrueElem_abs_le (x t : ℝ) (hx : 0 < x) :
    |qtrueElem x t| ≤ Real.sqrt 0.4 / Real.sqrt x := by
  have hs : 0 < Real.sqrt x := Real.sqrt_pos.mpr hx
  simp only [qtrueElem]
  rw [if_pos (ne_of_gt hx), qinit_eq]
  split
  · next h =>
    have hlt : Real.sqrt ((Real.sqrt x - t) ^ 2) ≤ Real.sqrt 0.4 :=
      Real.sqrt_le_sqrt (le_of_lt h.2)
    have hnn : 0 ≤ (1 : ℝ) / Real.sqrt x * Real.sqrt ((Real.sqrt x - t) ^ 2) := by
      positivity
    rw [abs_of_nonneg hnn, one_div, inv_mul_eq_div]
    gcongr
  · rw [zero_div, zero_mul, abs_zero]
    positivity

/-- Claim C7: for finite non-negative inputs the value of qtrue is a
well-defined finite real — 0 at the singular point, and bounded in absolute
value by sqrt 0.4 / sqrt x elsewhere, in both the scalar branch and the array
loop body. -/
theorem spec_C7 (x t : ℝ) (hx : 0 ≤ x) :
    (x = 0 → qtrueElem x t = 0 ∧ qtrueScalar x t = 0) ∧
    (x ≠ 0 → |qtrueElem x t| ≤ Real.sqrt 0.4 / Real.sqrt x ∧
             |qtrueScalar x t| ≤ Real.sqrt 0.4 / Real.sqrt x) := by
  constructor
  · rintro rfl
    exact ⟨qtrueElem_zero t, qtrueScalar_zero t⟩
  · intro hne
    have hpos : 0 < x := lt_of_le_of_ne hx (Ne.symm hne)
    have h := qtrueElem_abs_le x t hpos
    exact ⟨h, by rw [qtrueScalar_eq_qtrueElem]; exact h⟩

/-- Witness for C7 at the concrete input x = 1, t = 0. -/
theorem spec_C7_witness :
    (0 : ℝ) ≤ 1 ∧
    (((1 : ℝ) = 0 → qtrueElem 1 0 = 0 ∧ qtrueScalar 1 0 = 0) ∧
     ((1 : ℝ) ≠ 0 → |qtrueElem 1 0| ≤ Real.sqrt 0.4 / Real.sqrt 1 ∧
                    |qtrueScalar 1 0| ≤ Real.sqrt 0.4 / Real.sqrt 1)) :=
  ⟨zero_le_one, spec_C7 1 0 zero_le_one⟩

/-- Claim C8: qtrue is deterministic and pure — it is a function of its two
arguments alone, so two calls on equal inputs return equal results, and the
embedding shows it reads and writes no state besides its arguments. -/
theorem spec_C8 (x1 x2 : PyVal) (t1 t2 : ℝ) (hx : x1 = x2) (ht : t1 = t2) :
    qtrue x1 t1 = qtrue x2 t2 := by
  rw [hx, ht]

/-- Witness for C8 on equal concrete inputs. -/
theorem spec_C8_witness :
    PyVal.scalar 1 = PyVal.scalar 1 ∧ (0 : ℝ) = 0 ∧
    qtrue (PyVal.scalar 1) 0 = qtrue (PyVal.scalar 1) 0 :=
  ⟨rfl, rfl, spec_C8 (PyVal.scalar 1) (PyVal.scalar 1) 0 0 rfl rfl⟩

/-- Claim C9: for a non-negative coordinate the value of qtrue is
non-negative, in the scalar branch and in the array loop body, since qinit
takes values in the set of 0 and 1 and both square roots are non-negative. -/
theorem spec_C9 (x t : ℝ) (hx : 0 ≤ x) :
    0 ≤ qtrueElem x t ∧ 0 ≤ qtrueScalar x t := by
  have h : 0 ≤ qtrueElem x t := by
    simp only [qtrueElem]
    split
    · exact mul_nonneg (div_nonneg (qinit_nonneg _) (Real.sqrt_nonneg _))
        (Real.sqrt_nonneg _)
    · exact le_refl 0
  exact ⟨h, by rw [qtrueScalar_eq_qtrueElem]; exact h⟩

/-- Witness for C9 at the concrete input x = 0.25, t = 0. -/
theorem spec_C9_witness :
    (0 : ℝ) ≤ 0.25 ∧ (0 ≤ qtrueElem 0.25 0 ∧ 0 ≤ qtrueScalar 0.25 0) :=
  ⟨by norm_num, spec_C9 0.25 0 (by norm_num)⟩

/-- Claim C10: time-reflection symmetry about t = sqrt x — for x > 0 the
scalar branch satisfies qtrue x t = qtrue x (2 sqrt x - t), because both the
shifted coordinate and the scale factor depend on t only through the square
of sqrt x - t. -/
theorem spec_C10 (x t : ℝ) (hx : 0 < x) :
    qtrueScalar x t = qtrueScalar x (2 * Real.sqrt x - t) := by
  have key : (Real.sqrt x - (2 * Real.sqrt x - t)) ^ 2 = (Real.sqrt x - t) ^ 2 := by
    ring
  simp only [qtrueScalar, key]

/-- Witness for C10 at the concrete input x = 1, t = 0. -/
theorem spec_C10_witness :
    (0 : ℝ) < 1 ∧ qtrueScalar 1 0 = qtrueScalar 1 (2 * Real.sqrt 1 - 0) :=
  ⟨zero_lt_one, spec_C10 1 0 zero_lt_one⟩

end Setplot
